import Mathlib

/-
Verification of the zdeploy authentication/authorization core, shallowly
embedded from the Go sources.

Modelling conventions:
- bytes and digests are `List Nat` (each entry a byte value);
- Go `time.Time` and `time.Duration` are `Int` nanoseconds;
- the relational token store is a `List Token`, the user store a `List User`
  (SQL row order models insertion order; a point lookup is the first match);
- effectful collaborators are injected as explicit arguments:
  `hashFn` abstracts crypto/sha256 Sum256, `randRead` abstracts
  crypto/rand Read, `bcryptGen` and `bcryptCompare` abstract the bcrypt
  primitives, and `Option String` oracles model database statement failures
  (`none` means the statement succeeded, `some e` that it failed with error
  text `e`, leaving the store unchanged);
- fallible Go functions returning `(value, error)` become `Except`,
  paired with the resulting store where the code also mutates state.
-/

namespace ZDeploy

/-! ## Token data model (token.go) -/

/-- Scope constant ScopeAuth from token.go. -/
def scopeAuth : String := "authentication"

/-- Scope constant ScopeDeploy from token.go. -/
def scopeDeploy : String := "deployment"

/-- Scope constant ScopeRefresh from token.go. -/
def scopeRefresh : String := "refresh"

/-- Nanoseconds in one hour, the unit of Go time.Hour. -/
def nsPerHour : Int := 3600 * 1000000000

/-- AuthTokenDuration = 2 * time.Hour (token.go). -/
def authTokenDuration : Int := 2 * nsPerHour

/-- DeployTokenDuration = 4 * time.Hour (token.go). -/
def deployTokenDuration : Int := 4 * nsPerHour

/-- RefreshTokenDuration = 7 * 24 * time.Hour (token.go). -/
def refreshTokenDuration : Int := 7 * 24 * nsPerHour

/-- The Token struct from token.go: PlainText, Hash, UserID, Expiry, Scope. -/
structure Token where
  plainText : String
  hash : List Nat
  userID : Int
  expiry : Int
  scope : String
deriving DecidableEq

/-! ## Base-32 encoding (Go base32.StdEncoding with padding disabled) -/

/-- The RFC 4648 standard base-32 alphabet used by Go base32.StdEncoding. -/
def b32Alphabet : List Char :=
  ['A', 'B', 'C', 'D', 'E', 'F', 'G', 'H', 'I', 'J', 'K', 'L', 'M',
   'N', 'O', 'P', 'Q', 'R', 'S', 'T', 'U', 'V', 'W', 'X', 'Y', 'Z',
   '2', '3', '4', '5', '6', '7']

/-- The eight bits of a byte, most significant first. -/
def byteBits (b : Nat) : List Bool :=
  [b / 128 % 2 == 1, b / 64 % 2 == 1, b / 32 % 2 == 1, b / 16 % 2 == 1,
   b / 8 % 2 == 1, b / 4 % 2 == 1, b / 2 % 2 == 1, b % 2 == 1]

/-- Value of a big-endian bit string. -/
def bitsVal (bits : List Bool) : Nat :=
  bits.foldl (fun acc b => 2 * acc + (if b then 1 else 0)) 0

/-- Split a bit stream into 5-bit group values, zero-padding the final
partial group, as RFC 4648 base-32 does when padding is disabled. -/
def fiveBitGroups : List Bool → List Nat
  | [] => []
  | [b0] => [bitsVal [b0, false, false, false, false]]
  | [b0, b1] => [bitsVal [b0, b1, false, false, false]]
  | [b0, b1, b2] => [bitsVal [b0, b1, b2, false, false]]
  | [b0, b1, b2, b3] => [bitsVal [b0, b1, b2, b3, false]]
  | b0 :: b1 :: b2 :: b3 :: b4 :: rest =>
    bitsVal [b0, b1, b2, b3, b4] :: fiveBitGroups rest

/-- Go base32.StdEncoding.WithPadding(NoPadding).EncodeToString on a byte list. -/
def base32NoPad (bytes : List Nat) : String :=
  String.mk ((fiveBitGroups (bytes.map byteBits).flatten).map (fun v => b32Alphabet.getD v 'A'))

/-! ## Token generation (GenerateToken, token.go) -/

/-- GenerateToken from token.go. `hashFn` abstracts sha256.Sum256 applied to
the plaintext bytes, `now` abstracts time.Now, and `randRead n` abstracts
filling an n-byte buffer from crypto/rand.Read, yielding either the drawn
bytes or the error of the random source. The Go code requests 32 bytes. -/
def generateToken (hashFn : String → List Nat) (now : Int)
    (randRead : Nat → Except String (List Nat))
    (userID : Int) (ttl : Int) (scope : String) : Except String Token :=
  match randRead 32 with
  | .error e => .error e
  | .ok bytes =>
    let plain := base32NoPad bytes
    .ok { plainText := plain, hash := hashFn plain,
          userID := userID, expiry := now + ttl, scope := scope }

/-! ## Token repository (token_repository.go) -/

/-- TokenRepo.Insert: the INSERT appends a row to the tokens table. -/
def insertToken (store : List Token) (t : Token) : List Token :=
  store ++ [t]

/-- TokenRepo.GetByHash: point SELECT by hash; first matching row. -/
def getByHash (store : List Token) (hash : List Nat) : Option Token :=
  store.find? (fun t => t.hash == hash)

/-- TokenRepo.DeleteAllTokensForUser: DELETE WHERE scope AND user_id match. -/
def deleteAllTokensForUser (store : List Token) (userID : Int) (scope : String) : List Token :=
  store.filter (fun t => !(t.scope == scope && t.userID == userID))

/-- TokenRepo.DeleteTokenByHash: DELETE WHERE hash matches. -/
def deleteTokenByHash (store : List Token) (hash : List Nat) : List Token :=
  store.filter (fun t => !(t.hash == hash))

/-- TokenRepo.CreateNewToken: GenerateToken then Insert. `insertErr` models a
database failure of the INSERT statement (`none` = success); on failure the
store is unchanged and the error is returned. -/
def createNewToken (hashFn : String → List Nat) (now : Int)
    (randRead : Nat → Except String (List Nat)) (insertErr : Option String)
    (store : List Token) (userID : Int) (ttl : Int) (scope : String) :
    Except String Token × List Token :=
  match generateToken hashFn now randRead userID ttl scope with
  | .error e => (.error e, store)
  | .ok tok =>
    match insertErr with
    | some e => (.error e, store)
    | none => (.ok tok, insertToken store tok)

/-! ## Token service (token_service.go) -/

/-- The distinct error values of the token service: ErrTokenNotFound,
ErrTokenExpired, ErrInvalidScope, plus pass-through repository and
generation errors. -/
inductive SvcError where
  | tokenNotFound
  | tokenExpired
  | invalidScope
  | repo (msg : String)
deriving DecidableEq

/-- TokenService.ValidateToken: recompute the digest of the plaintext, look
it up, then check expiry (time.Now().After(Expiry), i.e. expiry strictly
before now) and scope, in that order. A failed lookup is reported as
ErrTokenNotFound. -/
def validateToken (hashFn : String → List Nat) (now : Int) (store : List Token)
    (plaintext : String) (scope : String) : Except SvcError Token :=
  match getByHash store (hashFn plaintext) with
  | none => .error .tokenNotFound
  | some tok =>
    if tok.expiry < now then .error .tokenExpired
    else if tok.scope ≠ scope then .error .invalidScope
    else .ok tok

/-- TokenService.CreateAuthToken: delete all authentication-scope tokens of
the user, then create and insert a new one. `deleteErr` models a database
failure of the DELETE statement. -/
def createAuthToken (hashFn : String → List Nat) (now : Int)
    (randRead : Nat → Except String (List Nat))
    (deleteErr insertErr : Option String)
    (store : List Token) (userID : Int) (ttl : Int) :
    Except SvcError Token × List Token :=
  match deleteErr with
  | some e => (.error (.repo e), store)
  | none =>
    match createNewToken hashFn now randRead insertErr
        (deleteAllTokensForUser store userID scopeAuth) userID ttl scopeAuth with
    | (.error e, s) => (.error (.repo e), s)
    | (.ok tok, s) => (.ok tok, s)

/-- TokenService.CreateDeployToken: delete all deployment-scope tokens of the
user, then create and insert a new one with DeployTokenDuration. -/
def createDeployToken (hashFn : String → List Nat) (now : Int)
    (randRead : Nat → Except String (List Nat))
    (deleteErr insertErr : Option String)
    (store : List Token) (userID : Int) :
    Except SvcError Token × List Token :=
  match deleteErr with
  | some e => (.error (.repo e), store)
  | none =>
    match createNewToken hashFn now randRead insertErr
        (deleteAllTokensForUser store userID scopeDeploy) userID deployTokenDuration scopeDeploy with
    | (.error e, s) => (.error (.repo e), s)
    | (.ok tok, s) => (.ok tok, s)

/-- TokenService.CreateAuthTokenWithRefresh: create an authentication token
with AuthTokenDuration, then a refresh token with RefreshTokenDuration.
No DELETE is issued by this operation. -/
def createAuthTokenWithRefresh (hashFn : String → List Nat) (now : Int)
    (randRead1 randRead2 : Nat → Except String (List Nat))
    (insertErr1 insertErr2 : Option String)
    (store : List Token) (userID : Int) :
    Except SvcError (Token × Token) × List Token :=
  match createNewToken hashFn now randRead1 insertErr1 store userID authTokenDuration scopeAuth with
  | (.error e, s) => (.error (.repo e), s)
  | (.ok authTok, s1) =>
    match createNewToken hashFn now randRead2 insertErr2 s1 userID refreshTokenDuration scopeRefresh with
    | (.error e, s2) => (.error (.repo e), s2)
    | (.ok refreshTok, s2) => (.ok (authTok, refreshTok), s2)

/-- TokenService.RefreshAuthToken: validate the plaintext against the refresh
scope, then create a new authentication token for the owning user with
AuthTokenDuration. No DELETE is issued by this operation. -/
def refreshAuthToken (hashFn : String → List Nat) (now : Int)
    (randRead : Nat → Except String (List Nat)) (insertErr : Option String)
    (store : List Token) (refreshTokenPlaintext : String) :
    Except SvcError Token × List Token :=
  match validateToken hashFn now store refreshTokenPlaintext scopeRefresh with
  | .error e => (.error e, store)
  | .ok refreshTok =>
    match createNewToken hashFn now randRead insertErr store
        refreshTok.userID authTokenDuration scopeAuth with
    | (.error e, s) => (.error (.repo e), s)
    | (.ok tok, s) => (.ok tok, s)

/-- TokenService.RevokeToken: pass-through DeleteTokenByHash. -/
def revokeToken (deleteErr : Option String) (store : List Token) (hash : List Nat) :
    Except SvcError Unit × List Token :=
  match deleteErr with
  | some e => (.error (.repo e), store)
  | none => (.ok (), deleteTokenByHash store hash)

/-- TokenService.RevokeAllUserTokens: pass-through DeleteAllTokensForUser. -/
def revokeAllUserTokens (deleteErr : Option String) (store : List Token)
    (userID : Int) (scope : String) : Except SvcError Unit × List Token :=
  match deleteErr with
  | some e => (.error (.repo e), store)
  | none => (.ok (), deleteAllTokensForUser store userID scope)

/-! ## Sequences of token-service operations -/

/-- One token-service call together with the oracle values of its run: the
wall-clock time, the random bytes drawn, and the success or failure of each
database statement it issues. -/
inductive TokenOp where
  | opCreateAuth (now : Int) (userID ttl : Int)
      (randRead : Nat → Except String (List Nat)) (deleteErr insertErr : Option String)
  | opCreateDeploy (now : Int) (userID : Int)
      (randRead : Nat → Except String (List Nat)) (deleteErr insertErr : Option String)
  | opCreateAuthWithRefresh (now : Int) (userID : Int)
      (randRead1 randRead2 : Nat → Except String (List Nat)) (insertErr1 insertErr2 : Option String)
  | opRefreshAuth (now : Int) (plaintext : String)
      (randRead : Nat → Except String (List Nat)) (insertErr : Option String)
  | opRevoke (hash : List Nat) (deleteErr : Option String)
  | opRevokeAll (userID : Int) (scope : String) (deleteErr : Option String)

/-- The store left behind by one token-service operation. -/
def applyOp (hashFn : String → List Nat) (store : List Token) : TokenOp → List Token
  | .opCreateAuth now u ttl r de ie => (createAuthToken hashFn now r de ie store u ttl).2
  | .opCreateDeploy now u r de ie => (createDeployToken hashFn now r de ie store u).2
  | .opCreateAuthWithRefresh now u r1 r2 ie1 ie2 =>
      (createAuthTokenWithRefresh hashFn now r1 r2 ie1 ie2 store u).2
  | .opRefreshAuth now p r ie => (refreshAuthToken hashFn now r ie store p).2
  | .opRevoke h de => (revokeToken de store h).2
  | .opRevokeAll u s de => (revokeAllUserTokens de store u s).2

/-- The store left behind by a sequence of token-service operations. -/
def runOps (hashFn : String → List Nat) (store : List Token) : List TokenOp → List Token
  | [] => store
  | op :: ops => runOps hashFn (applyOp hashFn store op) ops

/-- Number of persisted tokens of a user in a scope. -/
def scopeCount (store : List Token) (userID : Int) (scope : String) : Nat :=
  store.countP (fun t => t.scope == scope && t.userID == userID)

/-- Number of persisted unexpired tokens of a user in a scope at time `now`. -/
def validScopeCount (store : List Token) (now : Int) (userID : Int) (scope : String) : Nat :=
  store.countP (fun t => t.scope == scope && t.userID == userID && !(decide (t.expiry < now)))

/-- At most one persisted deployment-scope token per user. -/
def atMostOneDeployPerUser (store : List Token) : Prop :=
  ∀ u : Int, scopeCount store u scopeDeploy ≤ 1

/-! ## Credential (password) model (part of the user package) -/

/-- The password struct of the credential model: an optional retained
plaintext and the bcrypt hash. -/
structure Password where
  plainText : Option String
  hash : List Nat
deriving DecidableEq

/-- Outcomes of bcrypt.CompareHashAndPassword, as the credential model
distinguishes them: the structural mismatch error, or any other error. -/
inductive BcryptError where
  | mismatchedHashAndPassword
  | other (msg : String)
deriving DecidableEq

/-- password.Set: call bcrypt.GenerateFromPassword with cost 12, then store
the resulting hash and keep a pointer to the plaintext. `bcryptGen` abstracts
the salted (hence nondeterministic) bcrypt hash generation, taking the
password and the cost. -/
def Password.set (bcryptGen : String → Nat → Except String (List Nat))
    (p : Password) (plainTextPassword : String) : Except String Password :=
  match bcryptGen plainTextPassword 12 with
  | .error e => .error e
  | .ok h => .ok { plainText := some plainTextPassword, hash := h }

/-- password.Matches: run bcrypt.CompareHashAndPassword on the stored hash
and the candidate; a mismatched-hash-and-password error yields false without
error, any other error is returned, and success yields true. `bcryptCompare`
abstracts the comparison, returning its error if any. -/
def Password.matches (bcryptCompare : List Nat → String → Option BcryptError)
    (p : Password) (plainTextPassword : String) : Except String Bool :=
  match bcryptCompare p.hash plainTextPassword with
  | some .mismatchedHashAndPassword => .ok false
  | some (.other e) => .error e
  | none => .ok true

/-- password.ClearPlainText: drop the retained plaintext. -/
def Password.clearPlainText (p : Password) : Password :=
  { p with plainText := none }

/-! ## User data model and service (part of the user package) -/

/-- The User struct: ID, Username, PasswordHash, CreatedAt, ApprovedAt,
ApprovedBy, IsAdmin, Status. -/
structure User where
  id : Int
  username : String
  passwordHash : Password
  createdAt : Int
  approvedAt : Option Int
  approvedBy : Option Int
  isAdmin : Bool
  status : String
deriving DecidableEq

/-- The distinct error values of the user service, plus pass-through
infrastructure errors. -/
inductive UserError where
  | userNotFound
  | userAlreadyExists
  | invalidUsername
  | invalidPassword
  | userNotApproved
  | unauthorized
  | userAlreadyApproved
  | other (msg : String)
deriving DecidableEq

/-- UserRepo.GetUserByUsername: point SELECT by username; no row yields
no user and no error. -/
def getUserByUsername (store : List User) (username : String) : Option User :=
  store.find? (fun u => u.username == username)

/-- Whitespace as strings.TrimSpace strips it, modelled for the ASCII
whitespace characters of unicode.IsSpace. -/
def isSpaceChar (c : Char) : Bool :=
  c == ' ' || c == '\t' || c == '\n' || c == '\r' ||
  c == Char.ofNat 11 || c == Char.ofNat 12

/-- strings.TrimSpace: drop leading and trailing whitespace. -/
def trimSpace (s : String) : String :=
  String.mk (((s.data.dropWhile isSpaceChar).reverse.dropWhile isSpaceChar).reverse)

/-- One character of the username character class of the Go regular
expression, a-z, A-Z, 0-9, underscore or hyphen. -/
def isUsernameChar (c : Char) : Bool :=
  ('a' ≤ c && c ≤ 'z') || ('A' ≤ c && c ≤ 'Z') || ('0' ≤ c && c ≤ '9') ||
  c == '_' || c == '-'

/-- UserService.validateUsername: trim the argument, check byte length 3..50
(Go len on a string counts bytes), then match the whole trimmed string
against one-or-more username characters. The original argument is not
modified. -/
def validateUsername (username : String) : Except UserError Unit :=
  let u := trimSpace username
  if u.utf8ByteSize < 3 then .error .invalidUsername
  else if u.utf8ByteSize > 50 then .error .invalidUsername
  else if u.data.all isUsernameChar && !u.data.isEmpty then .ok ()
  else .error .invalidUsername

/-- An uppercase letter as matched by the Go class A-Z. -/
def isUpperAZ (c : Char) : Bool := 'A' ≤ c && c ≤ 'Z'

/-- A lowercase letter as matched by the Go class a-z. -/
def isLowerAZ (c : Char) : Bool := 'a' ≤ c && c ≤ 'z'

/-- A digit as matched by the Go class backslash-d, 0-9. -/
def isDigit09 (c : Char) : Bool := '0' ≤ c && c ≤ '9'

/-- UserService.validatePassword: byte length 8..100 and at least one
uppercase letter, one lowercase letter and one digit. -/
def validatePassword (password : String) : Except UserError Unit :=
  if password.utf8ByteSize < 8 then .error .invalidPassword
  else if password.utf8ByteSize > 100 then .error .invalidPassword
  else if !(password.data.any isUpperAZ) || !(password.data.any isLowerAZ)
       || !(password.data.any isDigit09) then .error .invalidPassword
  else .ok ()

/-- UserService.CreateUser: validate username and password, check the
username is free, hash the password, insert the user, clear the retained
plaintext, and return the user. The Go code passes the user by pointer, so
the object inserted into the store is the same object whose plaintext is
cleared before returning; the persisted user is therefore modelled with the
plaintext already cleared. The database-assigned id and created-at values
are modelled as 0. -/
def createUser (bcryptGen : String → Nat → Except String (List Nat))
    (store : List User) (username password : String) :
    Except UserError (User × List User) :=
  match validateUsername username with
  | .error e => .error e
  | .ok _ =>
  match validatePassword password with
  | .error e => .error e
  | .ok _ =>
  match getUserByUsername store username with
  | some _ => .error .userAlreadyExists
  | none =>
    match bcryptGen password 12 with
    | .error e => .error (.other ("failed to hash password: " ++ e))
    | .ok h =>
      let user : User :=
        { id := 0, username := username,
          passwordHash := { plainText := none, hash := h },
          createdAt := 0, approvedAt := none, approvedBy := none,
          isAdmin := false, status := "pending" }
      .ok (user, store ++ [user])

/-- UserService.AuthenticateUser: look the user up by username, compare the
password, then check the approval gate, in that order. -/
def authenticateUser (bcryptCompare : List Nat → String → Option BcryptError)
    (store : List User) (username password : String) : Except UserError User :=
  match getUserByUsername store username with
  | none => .error .userNotFound
  | some user =>
    match Password.matches bcryptCompare user.passwordHash password with
    | .error e => .error (.other e)
    | .ok false => .error .unauthorized
    | .ok true =>
      match user.approvedAt with
      | none => .error .userNotApproved
      | some _ => .ok user

/-- UserService.ListUsers: clamp limit to 10 when non-positive and to 100
when above 100, clamp a negative offset to 0, then query the store.
`repoList` abstracts UserStore.ListUsers. -/
def listUsers (repoList : Int → Int → List User) (limit offset : Int) : List User :=
  let limit1 := if limit ≤ 0 then 10 else limit
  let limit2 := if limit1 > 100 then 100 else limit1
  let offset1 := if offset < 0 then 0 else offset
  repoList limit2 offset1

/-- UserService.ListPendingUsers: the same clamping as ListUsers, against
UserStore.ListPendingUsers. -/
def listPendingUsers (repoPendingList : Int → Int → List User) (limit offset : Int) : List User :=
  let limit1 := if limit ≤ 0 then 10 else limit
  let limit2 := if limit1 > 100 then 100 else limit1
  let offset1 := if offset < 0 then 0 else offset
  repoPendingList limit2 offset1

/-! ## Concrete oracles for witnesses and counterexamples -/

/-- A concrete injective stand-in digest for witnesses: the code points of
the string. -/
def cHashFn : String → List Nat := fun s => s.data.map Char.toNat

/-- A concrete random source drawing all-zero bytes. -/
def cRand0 : Nat → Except String (List Nat) := fun n => .ok (List.replicate n 0)

/-- A concrete random source drawing all-one bytes. -/
def cRand1 : Nat → Except String (List Nat) := fun n => .ok (List.replicate n 1)

/-- A concrete random source drawing all-two bytes. -/
def cRand2 : Nat → Except String (List Nat) := fun n => .ok (List.replicate n 2)

/-- A concrete failing random source. -/
def cRandFail : Nat → Except String (List Nat) := fun _ => .error "entropy unavailable"

/-- A concrete bcrypt generator stand-in: the hash is the cost argument. -/
def cBcryptGen : String → Nat → Except String (List Nat) := fun _ cost => .ok [cost]

/-- Fixture for the C2 witness: an already-expired deployment-scope token. -/
def c2Tok : Token :=
  { plainText := "q", hash := cHashFn "q", userID := 1, expiry := 5, scope := scopeDeploy }

/-- Fixture for the C3 witness: the token that CreateAuthToken mints at time 0
with ttl 3600 from the all-zero random source (the base-32 encoding of 32
zero bytes is 52 letters A, whose stand-in digest is 52 copies of 65). -/
def c3Tok : Token :=
  { plainText := String.mk (List.replicate 52 'A'), hash := List.replicate 52 65,
    userID := 1, expiry := 3600, scope := scopeAuth }

/-- Fixture for the C3 witness: a pre-existing authentication token of the
same user, which the call evicts. -/
def c3Old : Token :=
  { plainText := "old", hash := cHashFn "old", userID := 1, expiry := 999999, scope := scopeAuth }

/-- Fixture for the C4 witness: a valid refresh token of user 7. -/
def c4RTok : Token :=
  { plainText := "p", hash := cHashFn "p", userID := 7, expiry := 100, scope := scopeRefresh }

/-- Fixture for the C4 witness: the authentication token RefreshAuthToken
mints at time 0 from the all-zero random source. -/
def c4ATok : Token :=
  { plainText := String.mk (List.replicate 52 'A'), hash := List.replicate 52 65,
    userID := 7, expiry := authTokenDuration, scope := scopeAuth }

/-- A concrete bcrypt comparison reporting a structural mismatch. -/
def cBcryptCmpMismatch : List Nat → String → Option BcryptError :=
  fun _ _ => some .mismatchedHashAndPassword

/-- A concrete bcrypt comparison failing on a malformed stored hash. -/
def cBcryptCmpMalformed : List Nat → String → Option BcryptError :=
  fun _ _ => some (.other "malformed hash")

/-- A concrete bcrypt comparison that succeeds. -/
def cBcryptCmpOk : List Nat → String → Option BcryptError := fun _ _ => none

/-- Fixture for the C8 witness: a pending, not yet approved user. -/
def c8User : User :=
  { id := 1, username := "alice", passwordHash := { plainText := none, hash := [12] },
    createdAt := 0, approvedAt := none, approvedBy := none, isAdmin := false,
    status := "pending" }

/-- Fixture for the C9 counterexample: the user that createUser persists for
the space-padded username, spaces included. -/
def c9BadUser : User :=
  { id := 0, username := " abc ", passwordHash := { plainText := none, hash := [12] },
    createdAt := 0, approvedAt := none, approvedBy := none, isAdmin := false,
    status := "pending" }

/-- Fixture for the C9 witness: the user createUser persists for the valid
username user_name-1. -/
def c9GoodUser : User :=
  { id := 0, username := "user_name-1", passwordHash := { plainText := none, hash := [12] },
    createdAt := 0, approvedAt := none, approvedBy := none, isAdmin := false,
    status := "pending" }

/-! ## Helper lemmas -/

theorem scopeCount_filter_le (q : Token → Bool) (store : List Token) (u : Int) (s : String) :
    scopeCount (store.filter q) u s ≤ scopeCount store u s := by
  unfold scopeCount
  rw [List.countP_filter]
  exact List.countP_mono_left (fun t _ h => by
    simp only [Bool.and_eq_true] at h ⊢
    exact h.1)

theorem scopeCount_deleteAll_self (store : List Token) (u : Int) (s : String) :
    scopeCount (deleteAllTokensForUser store u s) u s = 0 := by
  unfold scopeCount deleteAllTokensForUser
  rw [List.countP_filter]
  simp

theorem scopeCount_deleteAll_le (store : List Token) (u u' : Int) (s s' : String) :
    scopeCount (deleteAllTokensForUser store u' s') u s ≤ scopeCount store u s :=
  scopeCount_filter_le _ store u s

theorem scopeCount_insert (store : List Token) (t : Token) (u : Int) (s : String) :
    scopeCount (insertToken store t) u s =
      scopeCount store u s + (if t.scope == s && t.userID == u then 1 else 0) := by
  unfold scopeCount insertToken
  rw [List.countP_append]
  simp [List.countP_cons]

theorem createNewToken_ok (hashFn : String → List Nat) (now : Int)
    (randRead : Nat → Except String (List Nat)) (insertErr : Option String)
    (store : List Token) (userID ttl : Int) (scope : String) (tok : Token) (s' : List Token)
    (h : createNewToken hashFn now randRead insertErr store userID ttl scope = (.ok tok, s')) :
    tok.scope = scope ∧ tok.userID = userID ∧ tok.expiry = now + ttl ∧
    tok.hash = hashFn tok.plainText ∧ s' = insertToken store tok ∧ insertErr = none := by
  unfold createNewToken generateToken at h
  cases hr : randRead 32 with
  | error e => rw [hr] at h; simp at h
  | ok bytes =>
    rw [hr] at h
    cases insertErr with
    | some e => simp at h
    | none =>
      simp only [Prod.mk.injEq] at h
      obtain ⟨h1, h2⟩ := h
      cases h1
      exact ⟨rfl, rfl, rfl, rfl, h2.symm, rfl⟩

theorem createNewToken_snd (hashFn : String → List Nat) (now : Int)
    (randRead : Nat → Except String (List Nat)) (insertErr : Option String)
    (store : List Token) (userID ttl : Int) (scope : String) :
    (createNewToken hashFn now randRead insertErr store userID ttl scope).2 = store ∨
    ∃ tok : Token, tok.scope = scope ∧ tok.userID = userID ∧
      (createNewToken hashFn now randRead insertErr store userID ttl scope).2 =
        insertToken store tok := by
  unfold createNewToken generateToken
  cases hr : randRead 32 with
  | error e => left; rfl
  | ok bytes =>
    cases insertErr with
    | some e => left; rfl
    | none => right; exact ⟨_, rfl, rfl, rfl⟩

theorem fiveBitGroups_length : ∀ l : List Bool, (fiveBitGroups l).length = (l.length + 4) / 5
  | [] => by simp [fiveBitGroups]
  | [b0] => by simp [fiveBitGroups]
  | [b0, b1] => by simp [fiveBitGroups]
  | [b0, b1, b2] => by simp [fiveBitGroups]
  | [b0, b1, b2, b3] => by simp [fiveBitGroups]
  | b0 :: b1 :: b2 :: b3 :: b4 :: rest => by
    have ih := fiveBitGroups_length rest
    simp only [fiveBitGroups, List.length_cons, ih]
    omega

theorem byteBitsFlatten_length (bytes : List Nat) :
    ((bytes.map byteBits).flatten).length = 8 * bytes.length := by
  induction bytes with
  | nil => simp
  | cons b bs ih =>
    simp only [List.map_cons, List.flatten_cons, List.length_append, ih, List.length_cons,
      byteBits, List.length_cons]
    simp [byteBits]
    omega

theorem base32NoPad_length (bytes : List Nat) :
    (base32NoPad bytes).length = (8 * bytes.length + 4) / 5 := by
  show ((fiveBitGroups (bytes.map byteBits).flatten).map (fun v => b32Alphabet.getD v 'A')).length
      = (8 * bytes.length + 4) / 5
  rw [List.length_map, fiveBitGroups_length, byteBitsFlatten_length]

theorem createAuthToken_snd (hashFn : String → List Nat) (now : Int)
    (randRead : Nat → Except String (List Nat)) (insertErr : Option String)
    (store : List Token) (u ttl : Int) :
    (createAuthToken hashFn now randRead none insertErr store u ttl).2 =
      (createNewToken hashFn now randRead insertErr
        (deleteAllTokensForUser store u scopeAuth) u ttl scopeAuth).2 := by
  unfold createAuthToken
  cases hcn : createNewToken hashFn now randRead insertErr
      (deleteAllTokensForUser store u scopeAuth) u ttl scopeAuth with
  | mk r s => cases r <;> simp [hcn]

theorem createDeployToken_snd (hashFn : String → List Nat) (now : Int)
    (randRead : Nat → Except String (List Nat)) (insertErr : Option String)
    (store : List Token) (u : Int) :
    (createDeployToken hashFn now randRead none insertErr store u).2 =
      (createNewToken hashFn now randRead insertErr
        (deleteAllTokensForUser store u scopeDeploy) u deployTokenDuration scopeDeploy).2 := by
  unfold createDeployToken
  cases hcn : createNewToken hashFn now randRead insertErr
      (deleteAllTokensForUser store u scopeDeploy) u deployTokenDuration scopeDeploy with
  | mk r s => cases r <;> simp [hcn]

theorem scopeCount_createNewToken_ne (hashFn : String → List Nat) (now : Int)
    (randRead : Nat → Except String (List Nat)) (insertErr : Option String)
    (store : List Token) (uid ttl : Int) (scope : String) (u : Int) (s : String)
    (hscope : scope ≠ s) :
    scopeCount (createNewToken hashFn now randRead insertErr store uid ttl scope).2 u s =
      scopeCount store u s := by
  rcases createNewToken_snd hashFn now randRead insertErr store uid ttl scope with
    h | ⟨tok, hsc, _, h⟩
  · rw [h]
  · rw [h, scopeCount_insert]
    have hfalse : (tok.scope == s) = false := by
      rw [hsc]
      exact beq_eq_false_iff_ne.mpr hscope
    simp [hfalse]

theorem validateToken_ok_iff (hashFn : String → List Nat) (now : Int)
    (store : List Token) (p s : String) (r : Token) :
    validateToken hashFn now store p s = .ok r ↔
      getByHash store (hashFn p) = some r ∧ ¬ r.expiry < now ∧ r.scope = s := by
  cases hg : getByHash store (hashFn p) with
  | none => simp [validateToken, hg]
  | some t =>
    simp only [validateToken, hg, Option.some.injEq]
    by_cases he : t.expiry < now
    · rw [if_pos he]
      constructor
      · intro h; exact absurd h (by simp)
      · rintro ⟨rfl, hne, _⟩
        exact absurd he hne
    · rw [if_neg he]
      by_cases hs : t.scope = s
      · rw [if_neg (not_not_intro hs)]
        constructor
        · intro h
          injection h with h'
          subst h'
          exact ⟨rfl, he, hs⟩
        · rintro ⟨rfl, _, _⟩
          rfl
      · rw [if_pos hs]
        constructor
        · intro h; exact absurd h (by simp)
        · rintro ⟨rfl, _, hsc⟩
          exact absurd hsc hs

/-! ## Claims -/

/-- C2: ValidateToken recomputes the digest of the plaintext, looks it up,
and applies three checks in order: a missing token yields tokenNotFound;
otherwise an expiry strictly before the current time yields tokenExpired,
regardless of the scope of the token; otherwise a scope different from the
expected one yields invalidScope; otherwise the token is returned. The three
failure values are pairwise distinct. -/
theorem validateToken_three_checks (hashFn : String → List Nat) (now : Int)
    (store : List Token) (p s : String) :
    (getByHash store (hashFn p) = none →
      validateToken hashFn now store p s = .error .tokenNotFound) ∧
    (∀ t, getByHash store (hashFn p) = some t → t.expiry < now →
      validateToken hashFn now store p s = .error .tokenExpired) ∧
    (∀ t, getByHash store (hashFn p) = some t → ¬ t.expiry < now → t.scope ≠ s →
      validateToken hashFn now store p s = .error .invalidScope) ∧
    (∀ t, getByHash store (hashFn p) = some t → ¬ t.expiry < now → t.scope = s →
      validateToken hashFn now store p s = .ok t) ∧
    SvcError.tokenNotFound ≠ SvcError.tokenExpired ∧
    SvcError.tokenNotFound ≠ SvcError.invalidScope ∧
    SvcError.tokenExpired ≠ SvcError.invalidScope := by
  refine ⟨?_, ?_, ?_, ?_, by simp, by simp, by simp⟩
  · intro h; unfold validateToken; rw [h]
  · intro t h he; unfold validateToken; rw [h]; simp [he]
  · intro t h he hs; unfold validateToken; rw [h]; simp [he, hs]
  · intro t h he hs; unfold validateToken; rw [h]; simp [he, hs]

/-- Witness for C2: at time 10, a token that expired at time 5 and whose
scope also mismatches is reported expired, not not-found or invalid-scope. -/
theorem validateToken_three_checks_witness :
    validateToken cHashFn 10 [c2Tok] "q" scopeAuth = .error .tokenExpired :=
  (validateToken_three_checks cHashFn 10 [c2Tok] "q" scopeAuth).2.1 c2Tok (by rfl) (by decide)

/-- C3: CreateAuthToken deletes all authentication-scope tokens of the user
before generating and inserting the new one, propagating a deletion error, a
generation error or a persistence error; CreateDeployToken follows the same
pattern for the deployment scope; a successful call leaves exactly one token
of the scope for the user, so in particular two successive CreateAuthToken
calls leave exactly one authentication-scope token. -/
theorem createToken_evict_then_issue :
    (∀ (hashFn : String → List Nat) (now : Int) randRead insertErr
        (store : List Token) (u ttl : Int) (e : String),
      createAuthToken hashFn now randRead (some e) insertErr store u ttl =
        (.error (.repo e), store)) ∧
    (∀ (hashFn : String → List Nat) (now : Int) randRead insertErr
        (store : List Token) (u ttl : Int) (e : String), randRead 32 = .error e →
      createAuthToken hashFn now randRead none insertErr store u ttl =
        (.error (.repo e), deleteAllTokensForUser store u scopeAuth)) ∧
    (∀ (hashFn : String → List Nat) (now : Int) randRead
        (store : List Token) (u ttl : Int) (e : String) (bytes : List Nat),
      randRead 32 = .ok bytes →
      createAuthToken hashFn now randRead none (some e) store u ttl =
        (.error (.repo e), deleteAllTokensForUser store u scopeAuth)) ∧
    (∀ (hashFn : String → List Nat) (now : Int) randRead deleteErr insertErr
        (store : List Token) (u ttl : Int) (tok : Token) (s' : List Token),
      createAuthToken hashFn now randRead deleteErr insertErr store u ttl = (.ok tok, s') →
      tok.scope = scopeAuth ∧ tok.userID = u ∧
      s' = insertToken (deleteAllTokensForUser store u scopeAuth) tok ∧
      scopeCount s' u scopeAuth = 1) ∧
    (∀ (hashFn : String → List Nat) (now : Int) randRead insertErr
        (store : List Token) (u : Int) (e : String),
      createDeployToken hashFn now randRead (some e) insertErr store u =
        (.error (.repo e), store)) ∧
    (∀ (hashFn : String → List Nat) (now : Int) randRead deleteErr insertErr
        (store : List Token) (u : Int) (tok : Token) (s' : List Token),
      createDeployToken hashFn now randRead deleteErr insertErr store u = (.ok tok, s') →
      tok.scope = scopeDeploy ∧ tok.userID = u ∧
      s' = insertToken (deleteAllTokensForUser store u scopeDeploy) tok ∧
      scopeCount s' u scopeDeploy = 1) ∧
    (∀ (hashFn : String → List Nat) (now1 now2 : Int) randRead1 randRead2
        deleteErr1 insertErr1 deleteErr2 insertErr2
        (store : List Token) (u ttl1 ttl2 : Int) (tok2 : Token) (s2 : List Token),
      createAuthToken hashFn now2 randRead2 deleteErr2 insertErr2
        (createAuthToken hashFn now1 randRead1 deleteErr1 insertErr1 store u ttl1).2 u ttl2 =
        (.ok tok2, s2) →
      scopeCount s2 u scopeAuth = 1) := by
  have hAuthOk : ∀ (hashFn : String → List Nat) (now : Int) randRead deleteErr insertErr
      (store : List Token) (u ttl : Int) (tok : Token) (s' : List Token),
      createAuthToken hashFn now randRead deleteErr insertErr store u ttl = (.ok tok, s') →
      tok.scope = scopeAuth ∧ tok.userID = u ∧
      s' = insertToken (deleteAllTokensForUser store u scopeAuth) tok ∧
      scopeCount s' u scopeAuth = 1 := by
    intro hashFn now randRead deleteErr insertErr store u ttl tok s' h
    cases deleteErr with
    | some e => simp [createAuthToken] at h
    | none =>
      unfold createAuthToken at h
      cases hcn : createNewToken hashFn now randRead insertErr
          (deleteAllTokensForUser store u scopeAuth) u ttl scopeAuth with
      | mk r s =>
        rw [hcn] at h
        cases r with
        | error e => simp at h
        | ok tok1 =>
          simp only [Prod.mk.injEq, Except.ok.injEq] at h
          obtain ⟨rfl, rfl⟩ := h
          obtain ⟨hsc, huid, _, _, hs, _⟩ :=
            createNewToken_ok _ _ _ _ _ _ _ _ _ _ hcn
          refine ⟨hsc, huid, hs, ?_⟩
          rw [hs, scopeCount_insert, scopeCount_deleteAll_self]
          simp [hsc, huid]
  refine ⟨?_, ?_, ?_, hAuthOk, ?_, ?_, ?_⟩
  · intro hashFn now randRead insertErr store u ttl e
    rfl
  · intro hashFn now randRead insertErr store u ttl e hr
    unfold createAuthToken createNewToken generateToken
    rw [hr]
  · intro hashFn now randRead store u ttl e bytes hr
    unfold createAuthToken createNewToken generateToken
    rw [hr]
  · intro hashFn now randRead insertErr store u e
    rfl
  · intro hashFn now randRead deleteErr insertErr store u tok s' h
    cases deleteErr with
    | some e => simp [createDeployToken] at h
    | none =>
      unfold createDeployToken at h
      cases hcn : createNewToken hashFn now randRead insertErr
          (deleteAllTokensForUser store u scopeDeploy) u deployTokenDuration scopeDeploy with
      | mk r s =>
        rw [hcn] at h
        cases r with
        | error e => simp at h
        | ok tok1 =>
          simp only [Prod.mk.injEq, Except.ok.injEq] at h
          obtain ⟨rfl, rfl⟩ := h
          obtain ⟨hsc, huid, _, _, hs, _⟩ :=
            createNewToken_ok _ _ _ _ _ _ _ _ _ _ hcn
          refine ⟨hsc, huid, hs, ?_⟩
          rw [hs, scopeCount_insert, scopeCount_deleteAll_self]
          simp [hsc, huid]
  · intro hashFn now1 now2 randRead1 randRead2 de1 ie1 de2 ie2 store u ttl1 ttl2 tok2 s2 h
    exact (hAuthOk hashFn now2 randRead2 de2 ie2 _ u ttl2 tok2 s2 h).2.2.2

theorem applyOp_preserves_deployInvariant (hashFn : String → List Nat)
    (store : List Token) (op : TokenOp) (h : atMostOneDeployPerUser store) :
    atMostOneDeployPerUser (applyOp hashFn store op) := by
  have hAuthDeploy : scopeAuth ≠ scopeDeploy := by simp [scopeAuth, scopeDeploy]
  have hRefreshDeploy : scopeRefresh ≠ scopeDeploy := by simp [scopeRefresh, scopeDeploy]
  have hDeployNew : ∀ (now : Int) randRead insertErr (st : List Token) (u' : Int),
      atMostOneDeployPerUser st →
      atMostOneDeployPerUser
        (createNewToken hashFn now randRead insertErr
          (deleteAllTokensForUser st u' scopeDeploy) u' deployTokenDuration scopeDeploy).2 := by
    intro now randRead insertErr st u' hst u
    rcases createNewToken_snd hashFn now randRead insertErr
        (deleteAllTokensForUser st u' scopeDeploy) u' deployTokenDuration scopeDeploy with
      he | ⟨tok, hsc, huid, he⟩
    · rw [he]
      exact le_trans (scopeCount_deleteAll_le st u u' scopeDeploy scopeDeploy) (hst u)
    · rw [he, scopeCount_insert]
      by_cases hu : u' = u
      · subst hu
        rw [scopeCount_deleteAll_self]
        split <;> omega
      · have hfalse : (tok.scope == scopeDeploy && tok.userID == u) = false := by
          rw [huid]
          simp only [Bool.and_eq_false_iff]
          right
          exact beq_eq_false_iff_ne.mpr hu
        rw [hfalse]
        have hle : scopeCount (deleteAllTokensForUser st u' scopeDeploy) u scopeDeploy ≤ 1 :=
          le_trans (scopeCount_deleteAll_le st u u' scopeDeploy scopeDeploy) (hst u)
        simpa using hle
  cases op with
  | opCreateAuth now u' ttl randRead de ie =>
    cases de with
    | some e =>
      intro u
      simp only [applyOp, createAuthToken]
      exact h u
    | none =>
      intro u
      simp only [applyOp]
      rw [createAuthToken_snd,
        scopeCount_createNewToken_ne _ _ _ _ _ _ _ _ _ _ hAuthDeploy]
      exact le_trans (scopeCount_deleteAll_le store u u' scopeDeploy scopeAuth) (h u)
  | opCreateDeploy now u' randRead de ie =>
    cases de with
    | some e =>
      intro u
      simp only [applyOp, createDeployToken]
      exact h u
    | none =>
      intro u
      simp only [applyOp]
      rw [createDeployToken_snd]
      exact hDeployNew now randRead ie store u' h u
  | opCreateAuthWithRefresh now u' randRead1 randRead2 ie1 ie2 =>
    intro u
    simp only [applyOp]
    unfold createAuthTokenWithRefresh
    cases hcn1 : createNewToken hashFn now randRead1 ie1 store u' authTokenDuration scopeAuth with
    | mk r1 s1 =>
      have hs1 : ∀ v : Int, scopeCount s1 v scopeDeploy ≤ 1 := by
        intro v
        have := scopeCount_createNewToken_ne hashFn now randRead1 ie1 store u'
          authTokenDuration scopeAuth v scopeDeploy hAuthDeploy
        rw [hcn1] at this
        rw [this]
        exact h v
      cases r1 with
      | error e => exact hs1 u
      | ok authTok =>
        dsimp only
        cases hcn2 : createNewToken hashFn now randRead2 ie2 s1 u'
            refreshTokenDuration scopeRefresh with
        | mk r2 s2 =>
          have hs2 : scopeCount s2 u scopeDeploy ≤ 1 := by
            have := scopeCount_createNewToken_ne hashFn now randRead2 ie2 s1 u'
              refreshTokenDuration scopeRefresh u scopeDeploy hRefreshDeploy
            rw [hcn2] at this
            rw [this]
            exact hs1 u
          cases r2 with
          | error e => exact hs2
          | ok refreshTok => exact hs2
  | opRefreshAuth now plaintext randRead ie =>
    intro u
    simp only [applyOp]
    unfold refreshAuthToken
    cases hv : validateToken hashFn now store plaintext scopeRefresh with
    | error e => exact h u
    | ok refreshTok =>
      dsimp only
      cases hcn : createNewToken hashFn now randRead ie store
          refreshTok.userID authTokenDuration scopeAuth with
      | mk r s =>
        have hs : scopeCount s u scopeDeploy ≤ 1 := by
          have := scopeCount_createNewToken_ne hashFn now randRead ie store
            refreshTok.userID authTokenDuration scopeAuth u scopeDeploy hAuthDeploy
          rw [hcn] at this
          rw [this]
          exact h u
        cases r with
        | error e => exact hs
        | ok tok => exact hs
  | opRevoke hsh de =>
    cases de with
    | some e =>
      intro u
      simp only [applyOp, revokeToken]
      exact h u
    | none =>
      intro u
      simp only [applyOp, revokeToken]
      exact le_trans (scopeCount_filter_le _ store u scopeDeploy) (h u)
  | opRevokeAll u' sc de =>
    cases de with
    | some e =>
      intro u
      simp only [applyOp, revokeAllUserTokens]
      exact h u
    | none =>
      intro u
      simp only [applyOp, revokeAllUserTokens]
      exact le_trans (scopeCount_deleteAll_le store u u' scopeDeploy sc) (h u)

/-- C1 as stated is false: starting from the empty store, CreateAuthToken
for user 1 followed by CreateAuthTokenWithRefresh for user 1 (all database
statements succeeding) leaves two unexpired authentication-scope tokens for
user 1, because CreateAuthTokenWithRefresh inserts its authentication token
without deleting the prior one. -/
theorem singleAuthTokenInvariant_counterexample :
    validScopeCount
      (runOps cHashFn []
        [.opCreateAuth 0 1 3600 cRand0 none none,
         .opCreateAuthWithRefresh 0 1 cRand1 cRand2 none none])
      0 1 scopeAuth = 2 := by rfl

/-- C1 amended: only CreateAuthToken and CreateDeployToken delete the prior
same-scope tokens of the user before inserting; CreateAuthTokenWithRefresh
and RefreshAuthToken insert authentication tokens with no prior eviction, so
multiple authentication tokens of one user may coexist. What holds across
every sequence of token-service operations is the deployment half of the
invariant: a store with at most one persisted deployment-scope token per
user keeps that property under any sequence of the six operations. -/
theorem deployInvariant_preserved (hashFn : String → List Nat)
    (store : List Token) (ops : List TokenOp)
    (h : atMostOneDeployPerUser store) :
    atMostOneDeployPerUser (runOps hashFn store ops) := by
  induction ops generalizing store with
  | nil => exact h
  | cons op ops ih =>
    exact ih (applyOp hashFn store op) (applyOp_preserves_deployInvariant hashFn store op h)

/-- Witness for C1 (amended): from the empty store, a concrete sequence that
creates deployment tokens twice for user 1, an auth-with-refresh pair, a
refresh and a revocation still has at most one deployment token per user. -/
theorem deployInvariant_preserved_witness :
    atMostOneDeployPerUser
      (runOps cHashFn []
        [.opCreateDeploy 0 1 cRand0 none none,
         .opCreateDeploy 10 1 cRand1 none none,
         .opCreateAuthWithRefresh 20 1 cRand2 cRand0 none none,
         .opRevokeAll 2 scopeAuth none]) :=
  deployInvariant_preserved cHashFn []
    [.opCreateDeploy 0 1 cRand0 none none,
     .opCreateDeploy 10 1 cRand1 none none,
     .opCreateAuthWithRefresh 20 1 cRand2 cRand0 none none,
     .opRevokeAll 2 scopeAuth none]
    (by intro u; simp [scopeCount])

/-- Witness for C3: at time 0, on a store holding one old authentication
token of user 1, CreateAuthToken with the all-zero random source succeeds
and leaves exactly the freshly minted token for user 1. -/
theorem createToken_evict_then_issue_witness :
    c3Tok.scope = scopeAuth ∧ c3Tok.userID = 1 ∧
    [c3Tok] = insertToken (deleteAllTokensForUser [c3Old] 1 scopeAuth) c3Tok ∧
    scopeCount [c3Tok] 1 scopeAuth = 1 :=
  createToken_evict_then_issue.2.2.2.1 cHashFn 0 cRand0 none none [c3Old] 1 3600 c3Tok
    [c3Tok] (by rfl)

/-- C4: when RefreshAuthToken succeeds on a refresh token that validated to
r, the returned token is a fresh authentication-scope token of the same user,
and the refresh token is neither rotated nor deleted: it is still retrieved
by its hash afterwards and still validates against the refresh scope at
every time not past its own expiry. -/
theorem refreshAuthToken_frame (hashFn : String → List Nat) (now : Int)
    (randRead : Nat → Except String (List Nat)) (insertErr : Option String)
    (store : List Token) (plaintext : String) (r tok : Token) (s' : List Token)
    (hval : validateToken hashFn now store plaintext scopeRefresh = .ok r)
    (hrun : refreshAuthToken hashFn now randRead insertErr store plaintext = (.ok tok, s')) :
    tok.scope = scopeAuth ∧ tok.userID = r.userID ∧
    getByHash s' (hashFn plaintext) = some r ∧
    (∀ now2 : Int, ¬ r.expiry < now2 →
      validateToken hashFn now2 s' plaintext scopeRefresh = .ok r) := by
  unfold refreshAuthToken at hrun
  rw [hval] at hrun
  dsimp only at hrun
  cases hcn : createNewToken hashFn now randRead insertErr store
      r.userID authTokenDuration scopeAuth with
  | mk rr s =>
    rw [hcn] at hrun
    cases rr with
    | error e => simp at hrun
    | ok tok1 =>
      simp only [Prod.mk.injEq, Except.ok.injEq] at hrun
      obtain ⟨rfl, rfl⟩ := hrun
      obtain ⟨hsc, huid, _, _, hs, _⟩ := createNewToken_ok _ _ _ _ _ _ _ _ _ _ hcn
      obtain ⟨hget, hexp, hscope⟩ := (validateToken_ok_iff _ _ _ _ _ _).mp hval
      have hget' : getByHash s (hashFn plaintext) = some r := by
        rw [hs]
        unfold getByHash insertToken
        unfold getByHash at hget
        rw [List.find?_append, hget]
        rfl
      refine ⟨hsc, huid, hget', ?_⟩
      intro now2 h2
      exact (validateToken_ok_iff _ _ _ _ _ _).mpr ⟨hget', h2, hscope⟩

/-- Witness for C4: user 7 holds one valid refresh token; after a successful
refresh at time 0 the new token has the authentication scope and user 7, and
the refresh token is still retrievable and valid up to its expiry. -/
theorem refreshAuthToken_frame_witness :
    c4ATok.scope = scopeAuth ∧ c4ATok.userID = c4RTok.userID ∧
    getByHash [c4RTok, c4ATok] (cHashFn "p") = some c4RTok ∧
    (∀ now2 : Int, ¬ c4RTok.expiry < now2 →
      validateToken cHashFn now2 [c4RTok, c4ATok] "p" scopeRefresh = .ok c4RTok) :=
  refreshAuthToken_frame cHashFn 0 cRand0 none [c4RTok] "p" c4RTok c4ATok
    [c4RTok, c4ATok] (by rfl) (by rfl)

/-- C5: CreateAuthTokenWithRefresh issues an authentication token with the
fixed 2-hour TTL and a refresh token with the fixed 7-day TTL as a pair,
deleting nothing, so every previously stored token (refresh tokens included)
is still in the store; and when the refresh-token insert fails after the
auth-token insert succeeded, the call returns the error while the freshly
inserted auth token remains persisted, with no compensating rollback. -/
theorem createAuthTokenWithRefresh_pair :
    (∀ (hashFn : String → List Nat) (now : Int) randRead1 randRead2 insertErr1 insertErr2
        (store : List Token) (u : Int) (a rt : Token) (s' : List Token),
      createAuthTokenWithRefresh hashFn now randRead1 randRead2 insertErr1 insertErr2
          store u = (.ok (a, rt), s') →
      a.scope = scopeAuth ∧ a.userID = u ∧ a.expiry = now + 2 * nsPerHour ∧
      rt.scope = scopeRefresh ∧ rt.userID = u ∧ rt.expiry = now + 7 * 24 * nsPerHour ∧
      s' = (store ++ [a]) ++ [rt]) ∧
    (∀ (hashFn : String → List Nat) (now : Int) randRead1 randRead2 insertErr2
        (store : List Token) (u : Int) (bytes1 bytes2 : List Nat) (e : String),
      randRead1 32 = .ok bytes1 → randRead2 32 = .ok bytes2 → insertErr2 = some e →
      createAuthTokenWithRefresh hashFn now randRead1 randRead2 none insertErr2 store u =
        (.error (.repo e),
         store ++ [{ plainText := base32NoPad bytes1,
                     hash := hashFn (base32NoPad bytes1), userID := u,
                     expiry := now + authTokenDuration, scope := scopeAuth }])) := by
  constructor
  · intro hashFn now randRead1 randRead2 ie1 ie2 store u a rt s' h
    unfold createAuthTokenWithRefresh at h
    cases hcn1 : createNewToken hashFn now randRead1 ie1 store u authTokenDuration scopeAuth with
    | mk r1 s1 =>
      rw [hcn1] at h
      cases r1 with
      | error e => simp at h
      | ok a1 =>
        dsimp only at h
        cases hcn2 : createNewToken hashFn now randRead2 ie2 s1 u
            refreshTokenDuration scopeRefresh with
        | mk r2 s2 =>
          rw [hcn2] at h
          cases r2 with
          | error e => simp at h
          | ok rt1 =>
            simp only [Prod.mk.injEq, Except.ok.injEq] at h
            obtain ⟨⟨rfl, rfl⟩, rfl⟩ := h
            obtain ⟨hsc1, huid1, hexp1, _, hs1, _⟩ :=
              createNewToken_ok _ _ _ _ _ _ _ _ _ _ hcn1
            obtain ⟨hsc2, huid2, hexp2, _, hs2, _⟩ :=
              createNewToken_ok _ _ _ _ _ _ _ _ _ _ hcn2
            refine ⟨hsc1, huid1, hexp1, hsc2, huid2, hexp2, ?_⟩
            rw [hs2, hs1]
            rfl
  · intro hashFn now randRead1 randRead2 ie2 store u bytes1 bytes2 e h1 h2 hie
    subst hie
    unfold createAuthTokenWithRefresh createNewToken generateToken
    rw [h1, h2]
    rfl

/-- Witness for C5: at time 0 for user 9, with the refresh-token insert
failing, the call errors yet the auth token minted from the all-zero bytes
is persisted. -/
theorem createAuthTokenWithRefresh_pair_witness :
    createAuthTokenWithRefresh cHashFn 0 cRand0 cRand1 none (some "insert failed") [] 9 =
      (.error (.repo "insert failed"),
       [] ++ [{ plainText := base32NoPad (List.replicate 32 0),
                hash := cHashFn (base32NoPad (List.replicate 32 0)), userID := 9,
                expiry := 0 + authTokenDuration, scope := scopeAuth }]) :=
  createAuthTokenWithRefresh_pair.2 cHashFn 0 cRand0 cRand1 (some "insert failed") [] 9
    (List.replicate 32 0) (List.replicate 32 1) "insert failed" rfl rfl rfl

/-- C6: GenerateToken requests 32 bytes from the random source; on success
the plaintext is their padding-free base-32 encoding (for n drawn bytes the
encoding has ceil(8n / 5) characters, so 52 for 32 bytes, with no padding),
the hash is the digest of that plaintext, the expiry is now plus ttl, and
the user and scope fields are as given; a failure of the random source
propagates as the error of the call, with no token produced. -/
theorem generateToken_spec (hashFn : String → List Nat) (now : Int)
    (randRead : Nat → Except String (List Nat)) (u ttl : Int) (scope : String) :
    (∀ e, randRead 32 = .error e →
      generateToken hashFn now randRead u ttl scope = .error e) ∧
    (∀ bytes, randRead 32 = .ok bytes →
      generateToken hashFn now randRead u ttl scope =
        .ok { plainText := base32NoPad bytes, hash := hashFn (base32NoPad bytes),
              userID := u, expiry := now + ttl, scope := scope }) ∧
    (∀ bytes : List Nat, (base32NoPad bytes).length = (8 * bytes.length + 4) / 5) ∧
    (∀ tok, generateToken hashFn now randRead u ttl scope = .ok tok →
      tok.hash = hashFn tok.plainText ∧ tok.expiry = now + ttl ∧
      tok.userID = u ∧ tok.scope = scope) := by
  refine ⟨?_, ?_, base32NoPad_length, ?_⟩
  · intro e h
    unfold generateToken
    rw [h]
  · intro bytes h
    unfold generateToken
    rw [h]
  · intro tok h
    unfold generateToken at h
    cases hr : randRead 32 with
    | error e => rw [hr] at h; simp at h
    | ok bytes =>
      rw [hr] at h
      simp only [Except.ok.injEq] at h
      subst h
      exact ⟨rfl, rfl, rfl, rfl⟩

/-- Witness for C6: a failing random source propagates its error; the
all-zero random source yields the 52-character base-32 plaintext with its
digest, expiry 5 + 60 and the given user and scope. -/
theorem generateToken_spec_witness :
    generateToken cHashFn 5 cRandFail 3 60 scopeAuth = .error "entropy unavailable" ∧
    generateToken cHashFn 5 cRand0 3 60 scopeAuth =
      .ok { plainText := base32NoPad (List.replicate 32 0),
            hash := cHashFn (base32NoPad (List.replicate 32 0)),
            userID := 3, expiry := 5 + 60, scope := scopeAuth } :=
  ⟨(generateToken_spec cHashFn 5 cRandFail 3 60 scopeAuth).1 "entropy unavailable" rfl,
   (generateToken_spec cHashFn 5 cRand0 3 60 scopeAuth).2.1 (List.replicate 32 0) rfl⟩

/-- C7 as stated is false: Password.set stores the hash but also retains the
plaintext in the credential; it does not discard it. Setting the password
Secret123 on an empty credential leaves plainText holding Secret123, which
is not none (the discarded state that clearPlainText produces). -/
theorem passwordSet_retains_counterexample :
    Password.set cBcryptGen { plainText := none, hash := [] } "Secret123" =
      .ok { plainText := some "Secret123", hash := [12] } ∧
    some "Secret123" ≠ (none : Option String) :=
  ⟨rfl, by simp⟩

/-- C7 amended: set computes the salted adaptive hash with fixed cost 12 and
stores it, but retains the plaintext rather than discarding it; the
plaintext is dropped only by the separate clearPlainText call (performed by
the user service after persistence, not by set). matches returns false with
no error on a structural mismatch, the distinct underlying error on any
other failure, and true on success. -/
theorem password_model_spec :
    (∀ gen (p : Password) plain h, gen plain 12 = .ok h →
      Password.set gen p plain = .ok { plainText := some plain, hash := h }) ∧
    (∀ gen (p : Password) plain e, gen plain 12 = .error e →
      Password.set gen p plain = .error e) ∧
    (∀ p : Password, (Password.clearPlainText p).plainText = none ∧
      (Password.clearPlainText p).hash = p.hash) ∧
    (∀ cmp (p : Password) c, cmp p.hash c = some .mismatchedHashAndPassword →
      Password.matches cmp p c = .ok false) ∧
    (∀ cmp (p : Password) c e, cmp p.hash c = some (.other e) →
      Password.matches cmp p c = .error e) ∧
    (∀ cmp (p : Password) c, cmp p.hash c = none →
      Password.matches cmp p c = .ok true) := by
  refine ⟨?_, ?_, ?_, ?_, ?_, ?_⟩
  · intro gen p plain h hgen
    unfold Password.set
    rw [hgen]
  · intro gen p plain e hgen
    unfold Password.set
    rw [hgen]
  · intro p
    exact ⟨rfl, rfl⟩
  · intro cmp p c hcmp
    unfold Password.matches
    rw [hcmp]
  · intro cmp p c e hcmp
    unfold Password.matches
    rw [hcmp]
  · intro cmp p c hcmp
    unfold Password.matches
    rw [hcmp]

/-- Witness for C7 (amended): set with the stand-in bcrypt stores hash cost
12 and retains the plaintext; a structural mismatch yields false without
error while a malformed stored hash yields the distinct error. -/
theorem password_model_spec_witness :
    Password.set cBcryptGen { plainText := none, hash := [] } "Hunter42x" =
      .ok { plainText := some "Hunter42x", hash := [12] } ∧
    Password.matches cBcryptCmpMismatch { plainText := none, hash := [12] } "wrong" =
      .ok false ∧
    Password.matches cBcryptCmpMalformed { plainText := none, hash := [12] } "x" =
      .error "malformed hash" :=
  ⟨password_model_spec.1 cBcryptGen { plainText := none, hash := [] } "Hunter42x" [12] rfl,
   password_model_spec.2.2.2.1 cBcryptCmpMismatch { plainText := none, hash := [12] } "wrong" rfl,
   password_model_spec.2.2.2.2.1 cBcryptCmpMalformed { plainText := none, hash := [12] } "x"
     "malformed hash" rfl⟩

/-- C8: AuthenticateUser surfaces distinct error values for an unknown
username (userNotFound), a wrong password for an existing user
(unauthorized), and a correct password for a not-yet-approved user
(userNotApproved); it returns the user successfully only when the password
matches and approvedAt is set, so a user whose approvedAt is null can never
authenticate. -/
theorem authenticateUser_spec (cmp : List Nat → String → Option BcryptError)
    (store : List User) (username pw : String) :
    (getUserByUsername store username = none →
      authenticateUser cmp store username pw = .error .userNotFound) ∧
    (∀ u, getUserByUsername store username = some u →
      Password.matches cmp u.passwordHash pw = .ok false →
      authenticateUser cmp store username pw = .error .unauthorized) ∧
    (∀ u, getUserByUsername store username = some u →
      Password.matches cmp u.passwordHash pw = .ok true → u.approvedAt = none →
      authenticateUser cmp store username pw = .error .userNotApproved) ∧
    (∀ u, authenticateUser cmp store username pw = .ok u →
      getUserByUsername store username = some u ∧
      Password.matches cmp u.passwordHash pw = .ok true ∧ u.approvedAt ≠ none) ∧
    UserError.userNotFound ≠ UserError.unauthorized ∧
    UserError.userNotFound ≠ UserError.userNotApproved ∧
    UserError.unauthorized ≠ UserError.userNotApproved := by
  refine ⟨?_, ?_, ?_, ?_, by simp, by simp, by simp⟩
  · intro h
    unfold authenticateUser
    rw [h]
  · intro u hget hmatch
    unfold authenticateUser
    rw [hget]
    dsimp only
    rw [hmatch]
  · intro u hget hmatch happ
    unfold authenticateUser
    rw [hget]
    dsimp only
    rw [hmatch]
    dsimp only
    rw [happ]
  · intro u h
    unfold authenticateUser at h
    cases hget : getUserByUsername store username with
    | none => rw [hget] at h; simp at h
    | some u' =>
      rw [hget] at h
      dsimp only at h
      cases hmatch : Password.matches cmp u'.passwordHash pw with
      | error e => rw [hmatch] at h; simp at h
      | ok b =>
        rw [hmatch] at h
        cases b with
        | false => simp at h
        | true =>
          dsimp only at h
          cases happ : u'.approvedAt with
          | none => rw [happ] at h; simp at h
          | some t =>
            rw [happ] at h
            simp only [Except.ok.injEq] at h
            subst h
            exact ⟨rfl, hmatch, by simp [happ]⟩

/-- Witness for C8: alice exists, the candidate password matches, but the
account has no approval timestamp, so authentication fails with the
distinct not-approved error. -/
theorem authenticateUser_spec_witness :
    authenticateUser cBcryptCmpOk [c8User] "alice" "Correct1Pw" = .error .userNotApproved :=
  (authenticateUser_spec cBcryptCmpOk [c8User] "alice" "Correct1Pw").2.2.1 c8User rfl rfl rfl

theorem validateUsername_ok_iff (username : String) :
    validateUsername username = .ok () ↔
      ¬ (trimSpace username).utf8ByteSize < 3 ∧ ¬ (trimSpace username).utf8ByteSize > 50 ∧
      ((trimSpace username).data.all isUsernameChar && !(trimSpace username).data.isEmpty)
        = true := by
  unfold validateUsername
  dsimp only
  split_ifs with h1 h2 h3
  · simp [h1]
  · simp [h1, h2]
  · simp [h1, h2, h3]
  · simp [h1, h2, h3]

/-- C9 as stated is false: validation is applied to the whitespace-trimmed
copy of the username while the original is persisted, so the space-padded
username (space)abc(space) passes validateUsername and createUser persists
it verbatim even though the space character is outside the allowed
character set. -/
theorem createUser_charset_counterexample :
    validateUsername " abc " = .ok () ∧
    createUser cBcryptGen [] " abc " "Password1" = .ok (c9BadUser, [c9BadUser]) ∧
    (" abc ".data.all isUsernameChar) = false :=
  ⟨rfl, rfl, rfl⟩

/-- C9 amended: createUser validates the TrimSpace-trimmed username against
byte length 3..50 and the character set a-z, A-Z, 0-9, underscore, hyphen,
and validates the password (byte length 8..100 with an uppercase letter, a
lowercase letter and a digit), both before any persistence; on success it
persists the original, untrimmed username, so the persisted username is
guaranteed to satisfy the length and charset rules only after trimming its
surrounding whitespace. The username ab is rejected with the validation
error and user_name-1 is accepted. -/
theorem createUser_validation :
    (∀ gen (store : List User) username pw (u : User) (s' : List User),
      createUser gen store username pw = .ok (u, s') →
      u.username = username ∧ s' = store ++ [u] ∧
      3 ≤ (trimSpace username).utf8ByteSize ∧ (trimSpace username).utf8ByteSize ≤ 50 ∧
      (trimSpace username).data.all isUsernameChar = true) ∧
    (∀ gen (store : List User) pw,
      createUser gen store "ab" pw = .error .invalidUsername) ∧
    validateUsername "user_name-1" = .ok () ∧
    (∀ gen (store : List User) username pw e, validateUsername username = .error e →
      createUser gen store username pw = .error e) ∧
    (∀ gen (store : List User) username pw e, validateUsername username = .ok () →
      validatePassword pw = .error e →
      createUser gen store username pw = .error e) ∧
    (∀ pw : String, validatePassword pw = .ok () ↔
      ¬ pw.utf8ByteSize < 8 ∧ ¬ pw.utf8ByteSize > 100 ∧
      pw.data.any isUpperAZ = true ∧ pw.data.any isLowerAZ = true ∧
      pw.data.any isDigit09 = true) := by
  refine ⟨?_, ?_, rfl, ?_, ?_, ?_⟩
  · intro gen store username pw u s' h
    unfold createUser at h
    cases hv : validateUsername username with
    | error e => rw [hv] at h; simp at h
    | ok unitVal =>
      obtain ⟨⟩ := unitVal
      rw [hv] at h
      dsimp only at h
      cases hvp : validatePassword pw with
      | error e => rw [hvp] at h; simp at h
      | ok unitVal2 =>
        obtain ⟨⟩ := unitVal2
        rw [hvp] at h
        dsimp only at h
        cases hg : getUserByUsername store username with
        | some u' => rw [hg] at h; simp at h
        | none =>
          rw [hg] at h
          dsimp only at h
          cases hgen : gen pw 12 with
          | error e => rw [hgen] at h; simp at h
          | ok hsh =>
            rw [hgen] at h
            simp only [Except.ok.injEq, Prod.mk.injEq] at h
            obtain ⟨rfl, rfl⟩ := h
            obtain ⟨hlen1, hlen2, hall⟩ := (validateUsername_ok_iff username).mp hv
            simp only [Bool.and_eq_true] at hall
            exact ⟨rfl, rfl, by omega, by omega, hall.1⟩
  · intro gen store pw
    rfl
  · intro gen store username pw e hv
    unfold createUser
    rw [hv]
  · intro gen store username pw e hv hvp
    unfold createUser
    rw [hv]
    dsimp only
    rw [hvp]
  · intro pw
    unfold validatePassword
    by_cases h1 : pw.utf8ByteSize < 8
    · simp [h1]
    · rw [if_neg h1]
      by_cases h2 : pw.utf8ByteSize > 100
      · simp [h1, h2]
      · rw [if_neg h2]
        by_cases h3 : (!(pw.data.any isUpperAZ) || !(pw.data.any isLowerAZ)
            || !(pw.data.any isDigit09)) = true
        · rw [if_pos h3]
          simp only [Bool.or_eq_true, Bool.not_eq_true'] at h3
          constructor
          · intro hcontra; exact absurd hcontra (by simp)
          · rintro ⟨_, _, ha, hb, hc⟩
            rcases h3 with (h3 | h3) | h3
            · rw [h3] at ha; exact absurd ha (by simp)
            · rw [h3] at hb; exact absurd hb (by simp)
            · rw [h3] at hc; exact absurd hc (by simp)
        · rw [if_neg h3]
          simp only [Bool.or_eq_true, Bool.not_eq_true'] at h3
          push_neg at h3
          obtain ⟨⟨ha, hb⟩, hc⟩ := h3
          simp only [Bool.not_eq_false] at ha hb hc
          simp [h1, h2, ha, hb, hc]

/-- Witness for C9 (amended): createUser accepts user_name-1 with a valid
password; the persisted username is the argument itself and its trimmed form
obeys the length and charset rules. -/
theorem createUser_validation_witness :
    c9GoodUser.username = "user_name-1" ∧ [c9GoodUser] = [] ++ [c9GoodUser] ∧
    3 ≤ (trimSpace "user_name-1").utf8ByteSize ∧
    (trimSpace "user_name-1").utf8ByteSize ≤ 50 ∧
    (trimSpace "user_name-1").data.all isUsernameChar = true :=
  createUser_validation.1 cBcryptGen [] "user_name-1" "Password1" c9GoodUser [c9GoodUser] rfl

/-- C10: ListUsers and ListPendingUsers clamp their paging parameters before
querying the store: a non-positive limit becomes 10, then a limit above 100
becomes 100, and a negative offset becomes 0, so the store is always queried
with a positive limit of at most 100 and a non-negative offset, with
in-range values passed through unchanged. -/
theorem listUsers_clamp (repoList repoPendingList : Int → Int → List User)
    (limit offset : Int) :
    ∃ l o : Int, 0 < l ∧ l ≤ 100 ∧ 0 ≤ o ∧
      l = (if (if limit ≤ 0 then 10 else limit) > 100 then 100
           else (if limit ≤ 0 then 10 else limit)) ∧
      o = (if offset < 0 then 0 else offset) ∧
      listUsers repoList limit offset = repoList l o ∧
      listPendingUsers repoPendingList limit offset = repoPendingList l o := by
  refine ⟨(if (if limit ≤ 0 then 10 else limit) > 100 then 100
           else (if limit ≤ 0 then 10 else limit)),
    (if offset < 0 then 0 else offset), ?_, ?_, ?_, rfl, rfl, rfl, rfl⟩
  · split_ifs <;> omega
  · split_ifs <;> omega
  · split_ifs <;> omega

end ZDeploy
